import Mathlib

/-!
Verification development for the settings-model core of the
bottlerocket-settings-sdk repository (file src/model/mod.rs).

The embedding models:
- structured values (serde_json::Value) as a JSON tree `Json` with integer
  numbers (the claims under study involve only strings and integers);
- serde_json::Error as a plain message string `SerdeError`;
- the `GenerateResult` enum and its `serialize` method;
- the `SettingsModel` trait as a structure bundling the trait operations
  together with the serde (de)serialization functions required by the
  trait bounds `Serialize + DeserializeOwned` and the boxed-error
  conversion required by `ErrorKind`;
- the `BottlerocketSetting` zero-size registration wrapper;
- the `BottlerocketSettingError` enum, with boxed domain errors erased to
  their display strings;
- the doc-example model `MySettings` from src/model/mod.rs lines 25-58.
-/

/-- A structured value: the JSON document tree used across the type-erasure
boundary (serde_json::Value), with numbers modelled as integers. -/
inductive Json where
  | null : Json
  | bool : Bool → Json
  | num : Int → Json
  | str : String → Json
  | arr : List Json → Json
  | obj : List (String × Json) → Json
deriving Repr

/-- A structured data-format error (serde_json::Error), modelled by its
display message. -/
abbrev SerdeError := String

/-- The result of generating a setting value at runtime
(src/model/mod.rs lines 140-148). -/
inductive GenerateResult (P C : Type) where
  | NeedsData : Option P → GenerateResult P C
  | Complete : C → GenerateResult P C
deriving Repr

/-- Helper mirroring Rust Option::transpose on Option of Result: some error
becomes an error, some ok becomes ok some, none becomes ok none. -/
def optionTransposeExcept {E A : Type} : Option (Except E A) → Except E (Option A)
  | none => Except.ok none
  | some (Except.ok a) => Except.ok (some a)
  | some (Except.error e) => Except.error e

/-- GenerateResult::serialize (src/model/mod.rs lines 156-169): serializes the
underlying result types into JSON values. The serde to_value functions of the
two payload types are passed explicitly, since in Rust they come from the
Serialize bounds on P and C. -/
def GenerateResult.serialize {P C : Type}
    (serP : P → Except SerdeError Json) (serC : C → Except SerdeError Json) :
    GenerateResult P C → Except SerdeError (GenerateResult Json Json)
  | GenerateResult.NeedsData optional_interior =>
      (optionTransposeExcept (optional_interior.map (fun i => serP i))).map
        (fun o => GenerateResult.NeedsData o)
  | GenerateResult.Complete interior =>
      (serC interior).map (fun j => GenerateResult.Complete j)

/-- The SettingsModel trait (src/model/mod.rs lines 64-103), bundled with the
serde functions required by its bounds: get_version, set, generate and
validate are the trait items; toJsonValue and fromJsonValue embed the
Serialize and DeserializeOwned bounds on the implementor, toJsonPartialKind
and fromJsonPartialKind those on PartialKind; showError embeds the
`ErrorKind: Into Box dyn Error` bound, erasing a domain error to its
display string. -/
structure SettingsModel (Value P E : Type) where
  get_version : String
  toJsonValue : Value → Except SerdeError Json
  fromJsonValue : Json → Except SerdeError Value
  toJsonPartialKind : P → Except SerdeError Json
  fromJsonPartialKind : Json → Except SerdeError P
  showError : E → String
  set : Option Value → Value → Except E Value
  generate : Option P → Option Json → Except E (GenerateResult P Value)
  validate : Value → Option Json → Except E Bool

/-- The model registration wrapper (src/model/mod.rs lines 120-132): its only
field embeds PhantomData, which holds no data. -/
structure BottlerocketSetting (T : Type) where
  _ghost : Unit

/-- BottlerocketSetting::model (src/model/mod.rs lines 127-131); Box is the
identity in this embedding. -/
def BottlerocketSetting.model (T : Type) : BottlerocketSetting T :=
  { _ghost := () }

/-- The error type returned when interacting with a user-defined SettingsModel
(src/model/mod.rs lines 180-242). Boxed domain errors (dyn Error) are erased
to their display strings. Field order follows the Rust variants. -/
inductive BottlerocketSettingError where
  | DeserializeInput
      (input_type : String) (input : Json) (version : String)
      (source : SerdeError)
  | GenerateSetting (version : String) (source : String)
  | ParseSetting (version : String) (source : SerdeError)
  | SerializeResult (version : String) (operation : String) (source : SerdeError)
  | SetSetting (version : String) (source : String)
  | ValidateSetting (version : String) (source : String)
deriving Repr

/-- The version tag carried by an error value: every variant of the Rust enum
has a version field, and this projection is total because of that. -/
def BottlerocketSettingError.versionOf : BottlerocketSettingError → String
  | BottlerocketSettingError.DeserializeInput _ _ v _ => v
  | BottlerocketSettingError.GenerateSetting v _ => v
  | BottlerocketSettingError.ParseSetting v _ => v
  | BottlerocketSettingError.SerializeResult v _ _ => v
  | BottlerocketSettingError.SetSetting v _ => v
  | BottlerocketSettingError.ValidateSetting v _ => v

/-- The offending input value carried by a DeserializeInput error; no other
variant carries one. -/
def BottlerocketSettingError.offendingInput : BottlerocketSettingError → Option Json
  | BottlerocketSettingError.DeserializeInput _ i _ _ => some i
  | _ => none

/-- The underlying structured data-format error carried by a DeserializeInput
error; of the other variants, only ParseSetting and SerializeResult carry a
structured format error. -/
def BottlerocketSettingError.formatCause : BottlerocketSettingError → Option SerdeError
  | BottlerocketSettingError.DeserializeInput _ _ _ s => some s
  | BottlerocketSettingError.ParseSetting _ s => some s
  | BottlerocketSettingError.SerializeResult _ _ s => some s
  | _ => none

mutual

/-- Compact rendering of a JSON value, mirroring the Display implementation of
serde_json::Value (string escaping is not modelled; the claims under study do
not depend on it). This is the fallback used by the DeserializeInput display
message. -/
def Json.toCompactString : Json → String
  | Json.null => "null"
  | Json.bool b => cond b "true" "false"
  | Json.num n => toString n
  | Json.str s => "\"" ++ s ++ "\""
  | Json.arr xs => "[" ++ jsonArrayCompact xs ++ "]"
  | Json.obj fs => "\x7b" ++ jsonObjectCompact fs ++ "\x7d"

/-- Compact rendering of the elements of a JSON array, comma separated. -/
def jsonArrayCompact : List Json → String
  | [] => ""
  | [x] => Json.toCompactString x
  | x :: xs => Json.toCompactString x ++ "," ++ jsonArrayCompact xs

/-- Compact rendering of the entries of a JSON object, comma separated. -/
def jsonObjectCompact : List (String × Json) → String
  | [] => ""
  | [(k, v)] => "\"" ++ k ++ "\":" ++ Json.toCompactString v
  | (k, v) :: xs =>
      "\"" ++ k ++ "\":" ++ Json.toCompactString v ++ "," ++ jsonObjectCompact xs

end

/-- The display message of the DeserializeInput variant (src/model/mod.rs lines
181-187): the value is pretty-printed with serde_json::to_string_pretty, and
on failure the code falls back to the Display form of the value (unwrap_or).
The pretty printer is passed as a function, since only its success or failure
matters to the claims. -/
def deserializeInputDisplay (pretty : Json → Except SerdeError String)
    (input_type : String) (input : Json) (version : String)
    (source : SerdeError) : String :=
  "Failed to deserialize " ++ input_type ++ " input as settings value version "
    ++ version ++ ": " ++ source ++ "\nValue: " ++
    (match pretty input with
     | Except.ok s => s
     | Except.error _ => Json.toCompactString input)

/-- Json field access used by struct deserialization: an object is searched
for the key (first occurrence), any other value is a type error, a missing
key is a missing-field error. -/
def Json.getField : Json → String → Except SerdeError Json
  | Json.obj fields, key =>
      match fields.lookup key with
      | some v => Except.ok v
      | none => Except.error ("missing field " ++ key)
  | _, _ => Except.error "invalid type: expected a map"

/-- Json accessor for strings, as produced by serde deserialization of a
String field. -/
def Json.asString : Json → Except SerdeError String
  | Json.str s => Except.ok s
  | _ => Except.error "invalid type: expected a string"

/-- Json accessor for integers, as produced by serde deserialization of an
i64 field. -/
def Json.asInt : Json → Except SerdeError Int
  | Json.num n => Except.ok n
  | _ => Except.error "invalid type: expected an integer"

/-- The doc-example settings value MySettings (src/model/mod.rs lines 25-29):
a name and a favorite number. -/
structure MySettings where
  name : String
  favorite_number : Int
deriving Repr, DecidableEq

/-- The derived Default of MySettings: empty string and zero. -/
def MySettings.default : MySettings :=
  { name := "", favorite_number := 0 }

/-- The derived serde Serialize of MySettings: an object with the fields in
declaration order. Serialization of this struct cannot fail. -/
def MySettings.toJson (v : MySettings) : Json :=
  Json.obj [("name", Json.str v.name), ("favorite_number", Json.num v.favorite_number)]

/-- The derived serde Deserialize of MySettings: reads the two named fields
from an object, in any field order, failing on a missing field or a field of
the wrong type. -/
def MySettings.fromJson (j : Json) : Except SerdeError MySettings := do
  let nameField ← j.getField "name"
  let n ← nameField.asString
  let numField ← j.getField "favorite_number"
  let k ← numField.asInt
  Except.ok { name := n, favorite_number := k }

/-- The doc-example SettingsModel implementation for MySettings
(src/model/mod.rs lines 33-58): PartialKind is Self, ErrorKind is
anyhow::Error (modelled as its display string), version is v1, set returns
the target unchanged, generate completes immediately with the default value,
and validate accepts everything. -/
def mySettingsModel : SettingsModel MySettings MySettings String :=
  { get_version := "v1"
    toJsonValue := fun v => Except.ok v.toJson
    fromJsonValue := MySettings.fromJson
    toJsonPartialKind := fun v => Except.ok v.toJson
    fromJsonPartialKind := MySettings.fromJson
    showError := fun e => e
    set := fun _current_value target => Except.ok target
    generate := fun _ _ => Except.ok (GenerateResult.Complete MySettings.default)
    validate := fun _value _validated_settings => Except.ok true }

/-- Modelled from the spec: the type-erased `set` operation of the erasure
bridge. The module src/model/erased.rs is declared in src/model/mod.rs line 8
but its body is not among the sources, so this follows section 4.2 of the
specification: deserialize the incoming structured values into the native
type, raising a DeserializeInput error that carries the version tag, the
offending structured value and the underlying parse cause; invoke the typed
operation, boxing a domain error as SetSetting; serialize the typed result,
raising SerializeResult on failure. -/
def erasedSet {V P E : Type} (m : SettingsModel V P E)
    (current : Option Json) (target : Json) :
    Except BottlerocketSettingError Json :=
  match (match current with
         | none => Except.ok none
         | some j =>
             match m.fromJsonValue j with
             | Except.ok v => Except.ok (some v)
             | Except.error e =>
                 Except.error (BottlerocketSettingError.DeserializeInput
                   "current value" j m.get_version e)) with
  | Except.error err => Except.error err
  | Except.ok cur =>
      match m.fromJsonValue target with
      | Except.error e =>
          Except.error (BottlerocketSettingError.DeserializeInput
            "target value" target m.get_version e)
      | Except.ok tgt =>
          match m.set cur tgt with
          | Except.error e =>
              Except.error (BottlerocketSettingError.SetSetting
                m.get_version (m.showError e))
          | Except.ok v =>
              match m.toJsonValue v with
              | Except.error e =>
                  Except.error (BottlerocketSettingError.SerializeResult
                    m.get_version "set" e)
              | Except.ok j => Except.ok j

/-- Modelled from the spec: the type-erased `generate` operation of the
erasure bridge (src/model/erased.rs is not among the sources; specification
section 4.2). The existing partial value is deserialized into PartialKind
(DeserializeInput on failure), dependent settings are passed through as a raw
structured value, a domain error is boxed as GenerateSetting, and the result
is serialized with GenerateResult::serialize, raising SerializeResult on
failure. -/
def erasedGenerate {V P E : Type} (m : SettingsModel V P E)
    (existing : Option Json) (dependent_settings : Option Json) :
    Except BottlerocketSettingError (GenerateResult Json Json) :=
  match (match existing with
         | none => Except.ok none
         | some j =>
             match m.fromJsonPartialKind j with
             | Except.ok p => Except.ok (some p)
             | Except.error e =>
                 Except.error (BottlerocketSettingError.DeserializeInput
                   "existing partial value" j m.get_version e)) with
  | Except.error err => Except.error err
  | Except.ok existing_partial =>
      match m.generate existing_partial dependent_settings with
      | Except.error e =>
          Except.error (BottlerocketSettingError.GenerateSetting
            m.get_version (m.showError e))
      | Except.ok r =>
          match r.serialize m.toJsonPartialKind m.toJsonValue with
          | Except.error e =>
              Except.error (BottlerocketSettingError.SerializeResult
                m.get_version "generate" e)
          | Except.ok rj => Except.ok rj

/-- Modelled from the spec: the type-erased `validate` operation of the
erasure bridge (src/model/erased.rs is not among the sources; specification
sections 4.2 and 6). The candidate value is deserialized (DeserializeInput on
failure), already-validated settings are passed through as a raw structured
value, a domain error is boxed as ValidateSetting, and the boolean verdict is
returned as is. -/
def erasedValidate {V P E : Type} (m : SettingsModel V P E)
    (value : Json) (validated_settings : Option Json) :
    Except BottlerocketSettingError Bool :=
  match m.fromJsonValue value with
  | Except.error e =>
      Except.error (BottlerocketSettingError.DeserializeInput
        "settings value" value m.get_version e)
  | Except.ok v =>
      match m.validate v validated_settings with
      | Except.error e =>
          Except.error (BottlerocketSettingError.ValidateSetting
            m.get_version (m.showError e))
      | Except.ok b => Except.ok b

/-- The generation cycle documented at src/model/mod.rs lines 84-89 and
specification section 4.1: the settings system repeatedly invokes generate,
feeding back the partial state returned by the previous call, until the
result is Complete; a Complete result ends the cycle and is kept. The
generate function is taken here as a pure function of its inputs, following
the trait signature. -/
def genRun {P C : Type} (g : Option P → Option Json → GenerateResult P C)
    (deps : Option Json) : GenerateResult P C → Nat → GenerateResult P C
  | s, 0 => s
  | GenerateResult.Complete c, _ + 1 => GenerateResult.Complete c
  | GenerateResult.NeedsData p, n + 1 => genRun g deps (g p deps) n

/-- A variant of the doc-example model whose domain validate operation fails,
used to exhibit the ValidateSetting error path of the erasure bridge. -/
def failingValidateModel : SettingsModel MySettings MySettings String :=
  { mySettingsModel with validate := fun _ _ => Except.error "boom" }

/-- C1: GenerateResult::serialize maps NeedsData (some p) to NeedsData of the
serialized p, NeedsData none to a result carrying no payload, Complete v to
Complete of the serialized v, and whenever serialization of the contained
payload fails the whole call returns that error (which the erasure bridge
tags as a serialize-result error), never a partially serialized result. -/
theorem generate_result_serialize_maps_variants_totally
    (P C : Type) (serP : P → Except SerdeError Json)
    (serC : C → Except SerdeError Json) (p : P) (v : C) :
    GenerateResult.serialize serP serC (GenerateResult.NeedsData none)
      = Except.ok (GenerateResult.NeedsData none) ∧
    (∀ j, serP p = Except.ok j →
      GenerateResult.serialize serP serC (GenerateResult.NeedsData (some p))
        = Except.ok (GenerateResult.NeedsData (some j))) ∧
    (∀ j, serC v = Except.ok j →
      GenerateResult.serialize serP serC (GenerateResult.Complete v)
        = Except.ok (GenerateResult.Complete j)) ∧
    (∀ e, serP p = Except.error e →
      GenerateResult.serialize serP serC (GenerateResult.NeedsData (some p))
        = Except.error e) ∧
    (∀ e, serC v = Except.error e →
      GenerateResult.serialize serP serC (GenerateResult.Complete v)
        = Except.error e) := by
  refine ⟨rfl, ?_, ?_, ?_, ?_⟩ <;>
    intro x hx <;>
    simp [GenerateResult.serialize, optionTransposeExcept, hx, Except.map]

/-- Witness for C1 at concrete inputs: a succeeding payload serializer on the
partial side and a failing one on the complete side. -/
theorem generate_result_serialize_maps_variants_totally_witness :
    GenerateResult.serialize (fun _ => Except.ok Json.null)
        (fun _ => Except.error "boom")
        (GenerateResult.NeedsData (some ()) : GenerateResult Unit Unit)
      = Except.ok (GenerateResult.NeedsData (some Json.null)) ∧
    GenerateResult.serialize (fun _ => Except.ok Json.null)
        (fun _ => Except.error "boom")
        (GenerateResult.Complete () : GenerateResult Unit Unit)
      = Except.error "boom" :=
  ⟨(generate_result_serialize_maps_variants_totally Unit Unit
      (fun _ => Except.ok Json.null) (fun _ => Except.error "boom")
      () ()).2.1 Json.null rfl,
   (generate_result_serialize_maps_variants_totally Unit Unit
      (fun _ => Except.ok Json.null) (fun _ => Except.error "boom")
      () ()).2.2.2.2 "boom" rfl⟩

/-- C9: GenerateResult::serialize fails exactly when serde serialization of a
contained payload fails; in particular NeedsData none performs no payload
serialization, always succeeds, and returns exactly NeedsData none. -/
theorem generate_result_serialize_error_iff_payload_error
    (P C : Type) (serP : P → Except SerdeError Json)
    (serC : C → Except SerdeError Json) (r : GenerateResult P C) :
    GenerateResult.serialize serP serC (GenerateResult.NeedsData none)
      = Except.ok (GenerateResult.NeedsData none) ∧
    ((∃ e, GenerateResult.serialize serP serC r = Except.error e) ↔
      (∃ p e, r = GenerateResult.NeedsData (some p) ∧ serP p = Except.error e) ∨
      (∃ c e, r = GenerateResult.Complete c ∧ serC c = Except.error e)) := by
  refine ⟨rfl, ?_⟩
  cases r with
  | NeedsData o =>
    cases o with
    | none => simp [GenerateResult.serialize, optionTransposeExcept, Except.map]
    | some p =>
      cases hp : serP p with
      | ok j =>
        simp [GenerateResult.serialize, optionTransposeExcept, hp, Except.map]
      | error e =>
        simp [GenerateResult.serialize, optionTransposeExcept, hp, Except.map]
  | Complete c =>
    cases hc : serC c with
    | ok j =>
      simp [GenerateResult.serialize, optionTransposeExcept, hc, Except.map]
    | error e =>
      simp [GenerateResult.serialize, optionTransposeExcept, hc, Except.map]

/-- C2: a malformed structured value given to the type-erased set, generate or
validate entry point yields a DeserializeInput error carrying the original
malformed input value, the version tag and the parse cause; the call is a
total function (no panic) and no defaulted value is substituted. -/
theorem erased_entry_points_report_deserialize_input
    (V P E : Type) (m : SettingsModel V P E) (j t : Json)
    (e eP : SerdeError) (deps vs : Option Json)
    (hV : m.fromJsonValue j = Except.error e)
    (hP : m.fromJsonPartialKind j = Except.error eP) :
    erasedSet m (some j) t
      = Except.error (BottlerocketSettingError.DeserializeInput
          "current value" j m.get_version e) ∧
    erasedSet m none j
      = Except.error (BottlerocketSettingError.DeserializeInput
          "target value" j m.get_version e) ∧
    erasedGenerate m (some j) deps
      = Except.error (BottlerocketSettingError.DeserializeInput
          "existing partial value" j m.get_version eP) ∧
    erasedValidate m j vs
      = Except.error (BottlerocketSettingError.DeserializeInput
          "settings value" j m.get_version e) := by
  refine ⟨?_, ?_, ?_, ?_⟩ <;>
    simp [erasedSet, erasedGenerate, erasedValidate, hV, hP]

/-- Witness for C2: the doc-example model rejects the JSON value null, and
each erased entry point surfaces the DeserializeInput error carrying null. -/
theorem erased_entry_points_report_deserialize_input_witness :
    erasedSet mySettingsModel (some Json.null) Json.null
      = Except.error (BottlerocketSettingError.DeserializeInput
          "current value" Json.null "v1" "invalid type: expected a map") ∧
    erasedSet mySettingsModel none Json.null
      = Except.error (BottlerocketSettingError.DeserializeInput
          "target value" Json.null "v1" "invalid type: expected a map") ∧
    erasedGenerate mySettingsModel (some Json.null) none
      = Except.error (BottlerocketSettingError.DeserializeInput
          "existing partial value" Json.null "v1" "invalid type: expected a map") ∧
    erasedValidate mySettingsModel Json.null none
      = Except.error (BottlerocketSettingError.DeserializeInput
          "settings value" Json.null "v1" "invalid type: expected a map") :=
  erased_entry_points_report_deserialize_input
    MySettings MySettings String mySettingsModel Json.null Json.null
    "invalid type: expected a map" "invalid type: expected a map"
    none none rfl rfl

/-- C3: when the candidate value deserializes, a domain validate verdict of
Ok b (in particular Ok false) is forwarded as a successful result by the
erased validate entry point; a ValidateSetting error is produced exactly when
the domain operation itself fails, so Ok false and Err are always
distinguishable at the caller. -/
theorem erased_validate_false_is_not_error
    (V P E : Type) (m : SettingsModel V P E) (j : Json) (v : V)
    (d : Option Json) (hV : m.fromJsonValue j = Except.ok v) :
    (∀ b, m.validate v d = Except.ok b → erasedValidate m j d = Except.ok b) ∧
    (∀ err, m.validate v d = Except.error err →
      erasedValidate m j d
        = Except.error (BottlerocketSettingError.ValidateSetting
            m.get_version (m.showError err))) ∧
    (∀ ver s,
      erasedValidate m j d
          = Except.error (BottlerocketSettingError.ValidateSetting ver s) →
      ∃ derr, m.validate v d = Except.error derr) := by
  refine ⟨?_, ?_, ?_⟩
  · intro b hb
    simp [erasedValidate, hV, hb]
  · intro err herr
    simp [erasedValidate, hV, herr]
  · intro ver s h
    cases hval : m.validate v d with
    | ok b => simp [erasedValidate, hV, hval] at h
    | error err => exact ⟨err, rfl⟩

/-- Witness for C3: the doc-example model accepts a concrete value (Ok), and
the failing variant model surfaces a ValidateSetting error for the same
value. -/
theorem erased_validate_false_is_not_error_witness :
    erasedValidate mySettingsModel
        (MySettings.toJson { name := "a", favorite_number := 3 }) none
      = Except.ok true ∧
    erasedValidate failingValidateModel
        (MySettings.toJson { name := "a", favorite_number := 3 }) none
      = Except.error (BottlerocketSettingError.ValidateSetting "v1" "boom") :=
  ⟨(erased_validate_false_is_not_error MySettings MySettings String
      mySettingsModel (MySettings.toJson { name := "a", favorite_number := 3 })
      { name := "a", favorite_number := 3 } none rfl).1 true rfl,
   (erased_validate_false_is_not_error MySettings MySettings String
      failingValidateModel (MySettings.toJson { name := "a", favorite_number := 3 })
      { name := "a", favorite_number := 3 } none rfl).2.1 "boom" rfl⟩

/-- C4: for every value of the doc-example settings model, serializing to a
structured value and deserializing back yields the original value (round-trip
law across the structured-value boundary). -/
theorem my_settings_roundtrip (v : MySettings) :
    MySettings.fromJson (MySettings.toJson v) = Except.ok v := rfl

/-- C5: generate, embedded as a pure function of its inputs following the
trait signature, is deterministic: identical existing-partial state and
identical dependency data give identical results; and the generation cycle
does not oscillate: a call that reproduces its own partial state under
unchanged dependency data keeps the cycle at that state, and a Complete
result is final for the cycle. -/
theorem generate_deterministic_no_oscillation
    (P C : Type) (g : Option P → Option Json → GenerateResult P C)
    (p₁ p₂ : Option P) (d₁ d₂ : Option Json) (n : Nat)
    (hp : p₁ = p₂) (hd : d₁ = d₂)
    (hfix : g p₁ d₁ = GenerateResult.NeedsData p₁) :
    g p₁ d₁ = g p₂ d₂ ∧
    genRun g d₁ (GenerateResult.NeedsData p₁) n = GenerateResult.NeedsData p₁ ∧
    (∀ (c : C) (k : Nat),
      genRun g d₁ (GenerateResult.Complete c) k = GenerateResult.Complete c) := by
  subst hp
  subst hd
  refine ⟨rfl, ?_, ?_⟩
  · induction n with
    | zero => rfl
    | succ n ih =>
      simp only [genRun, hfix]
      exact ih
  · intro c k
    cases k <;> rfl

/-- Witness for C5: a generate function that always requests more data keeps
the cycle at NeedsData none. -/
theorem generate_deterministic_no_oscillation_witness :
    genRun (fun (_ : Option Unit) (_ : Option Json) => GenerateResult.NeedsData none)
        none (GenerateResult.NeedsData (none : Option Unit) : GenerateResult Unit Unit) 3
      = GenerateResult.NeedsData none :=
  (generate_deterministic_no_oscillation Unit Unit
    (fun _ _ => GenerateResult.NeedsData none) none none none none 3
    rfl rfl rfl).2.1

/-- C6: every variant of BottlerocketSettingError carries the version string
of the model that produced it, as shown by the total projection versionOf;
the DeserializeInput variant additionally carries the offending input value
and the underlying structured data-format error. -/
theorem bottlerocket_setting_error_carries_version
    (it : String) (i : Json) (ver : String) (s : SerdeError)
    (gs ps ss vd op : String) :
    (BottlerocketSettingError.DeserializeInput it i ver s).versionOf = ver ∧
    (BottlerocketSettingError.GenerateSetting ver gs).versionOf = ver ∧
    (BottlerocketSettingError.ParseSetting ver ps).versionOf = ver ∧
    (BottlerocketSettingError.SerializeResult ver op s).versionOf = ver ∧
    (BottlerocketSettingError.SetSetting ver ss).versionOf = ver ∧
    (BottlerocketSettingError.ValidateSetting ver vd).versionOf = ver ∧
    (BottlerocketSettingError.DeserializeInput it i ver s).offendingInput = some i ∧
    (BottlerocketSettingError.DeserializeInput it i ver s).formatCause = some s :=
  ⟨rfl, rfl, rfl, rfl, rfl, rfl, rfl, rfl⟩

/-- C7: the doc-example model of version v1: set keeps the target value,
generate completes immediately with the default value (empty name, zero), and
validate accepts the example value. -/
theorem my_settings_scenario :
    mySettingsModel.get_version = "v1" ∧
    mySettingsModel.set none { name := "a", favorite_number := 3 }
      = Except.ok { name := "a", favorite_number := 3 } ∧
    mySettingsModel.generate none none
      = Except.ok (GenerateResult.Complete { name := "", favorite_number := 0 }) ∧
    mySettingsModel.validate { name := "a", favorite_number := 3 } none
      = Except.ok true :=
  ⟨rfl, rfl, rfl, rfl⟩

/-- C8: the registration wrapper holds no runtime state: all values of
BottlerocketSetting T are equal, and the model constructor result is fully
determined by the type T alone. -/
theorem bottlerocket_setting_has_no_runtime_state
    (T : Type) (a b : BottlerocketSetting T) :
    a = b ∧ BottlerocketSetting.model T = a := by
  cases a with
  | mk u =>
    cases b with
    | mk w =>
      cases u
      cases w
      exact ⟨rfl, rfl⟩

/-- C10: rendering the DeserializeInput display message is total: when the
pretty printer fails on the offending input, the message falls back to the
compact string form of the input instead of failing. -/
theorem deserialize_input_display_falls_back_to_compact
    (pretty : Json → Except SerdeError String) (it : String) (i : Json)
    (ver : String) (s e : SerdeError)
    (h : pretty i = Except.error e) :
    deserializeInputDisplay pretty it i ver s
      = "Failed to deserialize " ++ it ++ " input as settings value version "
          ++ ver ++ ": " ++ s ++ "\nValue: " ++ Json.toCompactString i := by
  simp [deserializeInputDisplay, h]

/-- Witness for C10: a pretty printer that always fails, applied to the empty
object; the message ends with the compact rendering of that object. -/
theorem deserialize_input_display_falls_back_to_compact_witness :
    deserializeInputDisplay (fun _ => Except.error "x") "set" (Json.obj [])
        "v1" "bad"
      = "Failed to deserialize " ++ "set" ++ " input as settings value version "
          ++ "v1" ++ ": " ++ "bad" ++ "\nValue: "
          ++ Json.toCompactString (Json.obj []) :=
  deserialize_input_display_falls_back_to_compact
    (fun _ => Except.error "x") "set" (Json.obj []) "v1" "bad" "x" rfl
